import Mathlib

/-!
Shallow embedding of the Flask query service in `app.py` (a read-only HTTP
facade over a Postgres/PostGIS dataset with three relations).

Modelling conventions:
* Python `str` values that undergo character-level processing (URLs,
  coordinate path segments) are handled through `String.data : List Char`;
  opaque pass-through strings (terms, titles) stay `String`.
* Python `float(...)` is embedded by `pyFloat`, which follows CPython's
  grammar for `float` on ASCII input: optional surrounding whitespace,
  optional sign, then `inf`/`infinity`/`nan` (case-insensitive) or a decimal
  numeral with optional fraction and exponent, with PEP-515 underscores
  allowed strictly between digits.  Finite values are denoted exactly as
  rationals (the decimal value), abstracting IEEE-754 rounding, which no
  verified property depends on.
* The database is a snapshot of the three relations as lists of rows; each
  SQL statement of the source is embedded as a Lean function on snapshots
  (`SELECT DISTINCT ... ORDER BY` becomes dedup + insertion sort).
* Python exceptions are embedded with `Except Unit`: a handler's
  `try/except` block becomes a `match` on the outcome of the database
  interaction, and an exception that escapes a handler is `Outcome.raised`.
-/

namespace NsApp

/-- Characters stripped by CPython's float parser around a numeral
(ASCII whitespace). -/
def isWs (c : Char) : Bool :=
  c = ' ' || c = '\t' || c = '\n' || c = '\r' || c = '\x0b' || c = '\x0c'

/-- Remove leading and trailing whitespace from a character list. -/
def stripWs (l : List Char) : List Char :=
  ((l.dropWhile isWs).reverse.dropWhile isWs).reverse

/-- The value denoted by a Python float literal: an exact rational for
finite values, or one of the special values produced by `inf` / `nan`. -/
inductive PyVal where
  | finite (q : ℚ)
  | infinite (neg : Bool)
  | nan
deriving DecidableEq, Repr

/-- Digit-or-underscore test, the alphabet of a PEP-515 digit group. -/
def isDU (c : Char) : Bool := c.isDigit || c = '_'

/-- No two consecutive underscores occur in the list. -/
def noDoubleU : List Char → Bool
  | [] => true
  | [_] => true
  | a :: b :: rest => !(a = '_' && b = '_') && noDoubleU (b :: rest)

/-- A valid nonempty digit group: starts and ends with a digit and every
underscore stands between two digits. -/
def okGroup (l : List Char) : Bool :=
  match l with
  | [] => false
  | c :: _ => c.isDigit && (l.getLastD '0').isDigit && noDoubleU l

/-- Numeric value of a list of decimal digit characters. -/
def digitsVal (l : List Char) : ℕ :=
  l.foldl (fun n c => 10 * n + (c.toNat - 48)) 0

/-- Exact rational value of a parsed decimal numeral: sign, integer-part
digits, fraction digits and decimal exponent. -/
def mkVal (neg : Bool) (ip fp : List Char) (ex : ℤ) : PyVal :=
  let d : ℕ := digitsVal (ip ++ fp)
  let n : ℤ := if neg then -(d : ℤ) else (d : ℤ)
  let k : ℤ := ex - (fp.length : ℤ)
  if 0 ≤ k then .finite (mkRat (n * (10 : ℤ) ^ k.toNat) 1)
  else .finite (mkRat n ((10 : ℕ) ^ (-k).toNat))

/-- Parse the optional exponent suffix of a numeral and finish the value.
`ip` and `fp` are the already-collected integer and fraction digits. -/
def parseExpPart (neg : Bool) (ip fp : List Char) (r : List Char) : Option PyVal :=
  match r with
  | [] => some (mkVal neg ip fp 0)
  | e :: r1 =>
    if e = 'e' || e = 'E' then
      let sr : Bool × List Char :=
        match r1 with
        | '+' :: t => (false, t)
        | '-' :: t => (true, t)
        | t => (false, t)
      let ed := sr.2.takeWhile isDU
      let r3 := sr.2.drop ed.length
      if okGroup ed && r3 = [] then
        let ev : ℤ := (digitsVal (ed.filter Char.isDigit) : ℤ)
        some (mkVal neg ip fp (if sr.1 then -ev else ev))
      else none
    else none

/-- Parse a float body after sign removal: the special spellings
`inf` / `infinity` / `nan` (case-insensitive) or a decimal numeral. -/
def parseUnsigned (neg : Bool) (l : List Char) : Option PyVal :=
  let low := l.map Char.toLower
  if low = "inf".data || low = "infinity".data then some (.infinite neg)
  else if low = "nan".data then some .nan
  else
    let ip := l.takeWhile isDU
    let r1 := l.drop ip.length
    if ip ≠ [] && !okGroup ip then none
    else
      match r1 with
      | '.' :: r2 =>
        let fp := r2.takeWhile isDU
        let r3 := r2.drop fp.length
        if fp ≠ [] && !okGroup fp then none
        else if ip = [] && fp = [] then none
        else parseExpPart neg (ip.filter Char.isDigit) (fp.filter Char.isDigit) r3
      | _ =>
        if ip = [] then none
        else parseExpPart neg (ip.filter Char.isDigit) [] r1

/-- Embedding of Python `float(s)` on ASCII input: strip whitespace, take an
optional sign, then parse the body; `none` is a raised `ValueError`. -/
def pyFloat (s : String) : Option PyVal :=
  match stripWs s.data with
  | '+' :: t => parseUnsigned false t
  | '-' :: t => parseUnsigned true t
  | t => parseUnsigned false t

/-- Embedding of Python `s.split("_")` (single-character separator): the
maximal underscore-free segments, keeping empty segments. -/
def splitSep : List Char → List (List Char)
  | [] => [[]]
  | c :: cs =>
    let r := splitSep cs
    if c = '_' then [] :: r
    else
      match r with
      | [] => [[c]]
      | g :: gs => (c :: g) :: gs

/-- Coordinate-path parsing shared by the two coordinate handlers
(`app.py` lines 56-63 and 106-114): split on `_`, require exactly three
segments, convert each with `float`; `none` means the handler aborts
with status 400 before any database access. -/
def parseCoords (s : String) : Option (PyVal × PyVal × PyVal) :=
  match splitSep s.data with
  | [p1, p2, p3] =>
    match pyFloat ⟨p1⟩, pyFloat ⟨p2⟩, pyFloat ⟨p3⟩ with
    | some x, some y, some z => some (x, y, z)
    | _, _, _ => none
  | _ => none

/-- A row of the `ns.annotations_terms` relation, restricted to the columns
the verified queries touch. -/
structure AnnotationRow where
  study_id : ℤ
  term : String
deriving DecidableEq, Repr

/-- A row of the `ns.coordinates` relation: a study id and the point's
`ST_X` / `ST_Y` / `ST_Z` components. -/
structure CoordRow where
  study_id : ℤ
  x : ℚ
  y : ℚ
  z : ℚ
deriving DecidableEq, Repr

/-- A row of the `ns.metadata` relation, restricted to the columns the
verified queries touch. -/
structure MetadataRow where
  study_id : ℤ
  title : String
deriving DecidableEq, Repr

/-- A snapshot of the external database: the three relations of the
`ns` schema as lists of rows. -/
structure Db where
  coordinates : List CoordRow
  metadata : List MetadataRow
  annotations_terms : List AnnotationRow
deriving DecidableEq, Repr

/-- SQL equality between a bound float parameter and a stored coordinate
component: a non-finite parameter matches no stored (finite) value. -/
def matchVal (v : PyVal) (c : ℚ) : Bool :=
  match v with
  | .finite q => q == c
  | _ => false

/-- Evaluation of `SELECT DISTINCT study_id ... ORDER BY study_id` over a
bag of matching rows: drop duplicates and sort ascending. -/
def distinctSorted (l : List ℤ) : List ℤ :=
  List.insertionSort (· ≤ ·) l.dedup

/-- Row comparison used by `ORDER BY a.study_id` on `(study_id, title)`
result pairs. -/
def byStudyId (p q : ℤ × String) : Prop := p.1 ≤ q.1

instance : DecidableRel byStudyId := fun p q => Int.decLe p.1 q.1

instance : IsTotal (ℤ × String) byStudyId := ⟨fun a b => Int.le_total a.1 b.1⟩

instance : IsTrans (ℤ × String) byStudyId := ⟨fun _ _ _ => Int.le_trans⟩

/-- The query of `get_studies_by_term` (`app.py` lines 44-49):
`SELECT DISTINCT study_id FROM ns.annotations_terms WHERE term = :t
ORDER BY study_id`. -/
def termsQuery (db : Db) (t : String) : List ℤ :=
  distinctSorted ((db.annotations_terms.filter (fun a => a.term == t)).map (·.study_id))

/-- The query of `get_studies_by_coordinates` (`app.py` lines 68-73):
`SELECT DISTINCT study_id FROM ns.coordinates WHERE ST_X(geom) = :x AND
ST_Y(geom) = :y AND ST_Z(geom) = :z ORDER BY study_id`. -/
def coordsQuery (db : Db) (vx vy vz : PyVal) : List ℤ :=
  distinctSorted ((db.coordinates.filter
    (fun r => matchVal vx r.x && matchVal vy r.y && matchVal vz r.z)).map (·.study_id))

/-- The query of `dissociate_by_terms` (`app.py` lines 85-95): distinct
`(study_id, title)` pairs of studies annotated with `ta`, anti-joined
(`NOT EXISTS`) against annotations with `tb`, joined with `ns.metadata`
for the title, ordered by study id. -/
def dissocTermsQuery (db : Db) (ta tb : String) : List (ℤ × String) :=
  List.insertionSort byStudyId
    (((db.annotations_terms.filter (fun a =>
        a.term == ta &&
        !db.annotations_terms.any (fun b => b.study_id == a.study_id && b.term == tb))).flatMap
      (fun a => (db.metadata.filter (fun m => m.study_id == a.study_id)).map
        (fun m => (a.study_id, m.title)))).dedup)

/-- The query of `dissociate_by_locations` (`app.py` lines 119-133):
distinct `(study_id, title)` pairs of studies with a point at the first
triple, anti-joined against points at the second triple, joined with
`ns.metadata`, ordered by study id. -/
def dissocLocQuery (db : Db) (x1 y1 z1 x2 y2 z2 : PyVal) : List (ℤ × String) :=
  List.insertionSort byStudyId
    (((db.coordinates.filter (fun a =>
        (matchVal x1 a.x && matchVal y1 a.y && matchVal z1 a.z) &&
        !db.coordinates.any (fun b =>
          b.study_id == a.study_id &&
          (matchVal x2 b.x && matchVal y2 b.y && matchVal z2 b.z)))).flatMap
      (fun a => (db.metadata.filter (fun m => m.study_id == a.study_id)).map
        (fun m => (a.study_id, m.title)))).dedup)

/-- The SQLAlchemy engine handle, with the (normalized) URL it was built
from and the `pool_pre_ping` flag passed at lines 20-23 of `app.py`. -/
structure Engine where
  url : List Char
  pool_pre_ping : Bool
deriving DecidableEq, Repr

/-- The module-level mutable state of `app.py`: the `_engine` global. -/
structure EngineState where
  engine : Option Engine
deriving DecidableEq, Repr

/-- Scheme normalization of `get_engine` (`app.py` lines 17-19): rewrite a
leading `postgres://` to `postgresql://`, leaving other URLs unchanged. -/
def normalize_db_url (l : List Char) : List Char :=
  if "postgres://".data.isPrefixOf l then "postgresql://".data ++ l.drop 11 else l

/-- Embedding of `get_engine` (`app.py` lines 10-24).  The state is the
`_engine` global; the environment argument is the value of `DB_URL`
(`none` when unset).  `Except.error` is the raised `RuntimeError`; note
that `if not db_url` also rejects an empty string. -/
def get_engine (st : EngineState) (db_url_env : Option (List Char)) :
    Except Unit (Engine × EngineState) :=
  match st.engine with
  | some e => .ok (e, st)
  | none =>
    match db_url_env with
    | none => .error ()
    | some url =>
      if url = [] then .error ()
      else
        let e : Engine := { url := normalize_db_url url, pool_pre_ping := true }
        .ok (e, { engine := some e })

/-- JSON values, as produced by Flask's `jsonify`. -/
inductive Json where
  | null
  | bool (b : Bool)
  | str (s : String)
  | int (n : ℤ)
  | num (v : PyVal)
  | arr (elems : List Json)
  | obj (fields : List (String × Json))

/-- A response body: a `jsonify` payload or the HTML page built by
`abort`. -/
inductive Body where
  | json (j : Json)
  | html (s : String)

/-- An HTTP response: status code and body. -/
structure Response where
  status : ℕ
  body : Body

/-- What a handler invocation produces: a response, or an exception that
escapes the handler to the framework. -/
inductive Outcome where
  | resp (r : Response)
  | raised

/-- The generic error payload `{"error": "db query failed"}` returned by
every query handler's `except` clause. -/
def db_err_body : Json := .obj [("error", .str "db query failed")]

/-- The description passed to `abort(400, ...)` for malformed
coordinates. -/
def bad_coords_msg : String := "coords must be 'x_y_z', e.g., 0_-52_26"

/-- Shorthand for the uniform 500 error outcome of a query handler. -/
def dbErr (st : EngineState) : Outcome × EngineState :=
  (.resp ⟨500, .json db_err_body⟩, st)

/-- Embedding of `get_studies_by_term` (`app.py` lines 38-52).  The
`q` argument is the outcome of the connection/execution sequence inside
the `try` block: `.error` when any database step raises, `.ok db` when it
succeeds against snapshot `db`. -/
def get_studies_by_term (st : EngineState) (env : Option (List Char))
    (q : Except Unit Db) (term : String) : Outcome × EngineState :=
  match get_engine st env with
  | .error _ => dbErr st
  | .ok (_, st') =>
    match q with
    | .error _ => dbErr st'
    | .ok db => (.resp ⟨200, .json (.arr ((termsQuery db term).map .int))⟩, st')

/-- Embedding of `get_studies_by_coordinates` (`app.py` lines 55-76):
coordinate validation happens before any engine or database access, and a
parse failure aborts with 400. -/
def get_studies_by_coordinates (st : EngineState) (env : Option (List Char))
    (q : Except Unit Db) (coords : String) : Outcome × EngineState :=
  match parseCoords coords with
  | none => (.resp ⟨400, .html bad_coords_msg⟩, st)
  | some (x, y, z) =>
    match get_engine st env with
    | .error _ => dbErr st
    | .ok (_, st') =>
      match q with
      | .error _ => dbErr st'
      | .ok db => (.resp ⟨200, .json (.arr ((coordsQuery db x y z).map .int))⟩, st')

/-- Embedding of `dissociate_by_terms` (`app.py` lines 79-101). -/
def dissociate_by_terms (st : EngineState) (env : Option (List Char))
    (q : Except Unit Db) (term_a term_b : String) : Outcome × EngineState :=
  match get_engine st env with
  | .error _ => dbErr st
  | .ok (_, st') =>
    match q with
    | .error _ => dbErr st'
    | .ok db =>
      (.resp ⟨200, .json (.arr ((dissocTermsQuery db term_a term_b).map
        (fun r => .obj [("study_id", .int r.1), ("title", .str r.2)])))⟩, st')

/-- Embedding of `dissociate_by_locations` (`app.py` lines 104-140): both
coordinate strings are validated before any database access, the echoed
`coord` field is built once from the parsed first triple (line 134). -/
def dissociate_by_locations (st : EngineState) (env : Option (List Char))
    (q : Except Unit Db) (c1 c2 : String) : Outcome × EngineState :=
  match parseCoords c1, parseCoords c2 with
  | some (x1, y1, z1), some (x2, y2, z2) =>
    match get_engine st env with
    | .error _ => dbErr st
    | .ok (_, st') =>
      match q with
      | .error _ => dbErr st'
      | .ok db =>
        let coord : Json := .arr [.num x1, .num y1, .num z1]
        (.resp ⟨200, .json (.arr ((dissocLocQuery db x1 y1 z1 x2 y2 z2).map
          (fun r => .obj [("coord", coord), ("study_id", .int r.1),
                          ("title", .str r.2)])))⟩, st')
  | _, _ => (.resp ⟨400, .html bad_coords_msg⟩, st)

/-- SQLAlchemy's `engine.dialect.name`: the URL scheme up to `://`,
stripped of any `+driver` suffix (e.g. `postgresql` for
`postgresql+psycopg2://...`). -/
def dialect_name (e : Engine) : String :=
  ⟨(e.url.takeWhile (fun c => c != ':')).takeWhile (fun c => c != '+')⟩

/-- Outcomes of the individual statements run by `test_db` inside its
transaction (`app.py` lines 148-181): `setup` covers `eng.begin()` plus the
`SET search_path` statement, `commit` the close of the transactional
`with` block.  Sample results are already-shaped JSON rows. -/
structure DiagDb where
  setup : Except Unit Unit
  version : Except Unit String
  coordinates_count : Except Unit ℤ
  metadata_count : Except Unit ℤ
  annotations_terms_count : Except Unit ℤ
  coordinates_sample : Except Unit (List Json)
  metadata_sample : Except Unit (List Json)
  annotations_terms_sample : Except Unit (List Json)
  commit : Except Unit Unit

/-- The `try/except` wrapper around each sample sub-query of `test_db`:
the rows on success, the empty list when the sub-query raises. -/
def orEmpty : Except Unit (List Json) → List Json
  | .ok rows => rows
  | .error _ => []

/-- Payload fields appended to `{"ok": ..., "dialect": ...}` by a fully
executed `test_db` transaction body. -/
def diagFields (d : DiagDb) (v : String) (cc mc ac : ℤ) : List (String × Json) :=
  [("version", .str v),
   ("coordinates_count", .int cc),
   ("metadata_count", .int mc),
   ("annotations_terms_count", .int ac),
   ("coordinates_sample", .arr (orEmpty d.coordinates_sample)),
   ("metadata_sample", .arr (orEmpty d.metadata_sample)),
   ("annotations_terms_sample", .arr (orEmpty d.annotations_terms_sample))]

/-- The 500 error response of `test_db`'s `except` clause: the payload
accumulated so far with `error` appended, `ok` still `false`. -/
def diagErr (e : Engine) (rest : List (String × Json)) (st : EngineState) :
    Outcome × EngineState :=
  (.resp ⟨500, .json (.obj ([("ok", .bool false), ("dialect", .str (dialect_name e))]
    ++ rest ++ [("error", .str "db query failed")]))⟩, st)

/-- Embedding of `test_db` (`app.py` lines 142-186).  `get_engine()` runs
before the `try` block, so a configuration failure escapes the handler
(`Outcome.raised`).  Inside the transaction the version and count queries
are fatal, the three sample queries degrade to `[]`, and `payload["ok"]`
is flipped to `true` only after the transaction closes. -/
def test_db (st : EngineState) (env : Option (List Char)) (d : DiagDb) :
    Outcome × EngineState :=
  match get_engine st env with
  | .error _ => (.raised, st)
  | .ok (e, st') =>
    match d.setup with
    | .error _ => diagErr e [] st'
    | .ok _ =>
      match d.version with
      | .error _ => diagErr e [] st'
      | .ok v =>
        match d.coordinates_count with
        | .error _ => diagErr e [("version", .str v)] st'
        | .ok cc =>
          match d.metadata_count with
          | .error _ => diagErr e [("version", .str v), ("coordinates_count", .int cc)] st'
          | .ok mc =>
            match d.annotations_terms_count with
            | .error _ => diagErr e [("version", .str v), ("coordinates_count", .int cc),
                ("metadata_count", .int mc)] st'
            | .ok ac =>
              match d.commit with
              | .error _ => diagErr e (diagFields d v cc mc ac) st'
              | .ok _ =>
                (.resp ⟨200, .json (.obj ([("ok", .bool true),
                  ("dialect", .str (dialect_name e))] ++ diagFields d v cc mc ac))⟩, st')

/-! Theorems settling the specification claims. -/

/-- Helper: `distinctSorted` output is sorted (weakly ascending). -/
theorem distinctSorted_sorted (l : List ℤ) :
    List.Sorted (· ≤ ·) (distinctSorted l) :=
  List.sorted_insertionSort (· ≤ ·) l.dedup

/-- Helper: `distinctSorted` output has no duplicates. -/
theorem distinctSorted_nodup (l : List ℤ) : (distinctSorted l).Nodup :=
  (List.perm_insertionSort (· ≤ ·) l.dedup).symm.nodup (List.nodup_dedup l)

/-- C3: for every term string, every coordinate triple and every database
snapshot, the study-id lists produced by the studies-by-term and
studies-by-coordinate queries are sorted ascending with no duplicate, and
on a successful request each handler's 200 body is exactly that list. -/
theorem studies_sorted_nodup :
    (∀ (db : Db) (t : String),
      List.Sorted (· ≤ ·) (termsQuery db t) ∧ (termsQuery db t).Nodup)
    ∧ (∀ (db : Db) (vx vy vz : PyVal),
      List.Sorted (· ≤ ·) (coordsQuery db vx vy vz) ∧ (coordsQuery db vx vy vz).Nodup)
    ∧ (∀ (e : Engine) (env : Option (List Char)) (db : Db) (t : String),
      get_studies_by_term ⟨some e⟩ env (.ok db) t =
        (.resp ⟨200, .json (.arr ((termsQuery db t).map .int))⟩, ⟨some e⟩))
    ∧ (∀ (e : Engine) (env : Option (List Char)) (db : Db)
        (coords : String) (vx vy vz : PyVal),
      parseCoords coords = some (vx, vy, vz) →
      get_studies_by_coordinates ⟨some e⟩ env (.ok db) coords =
        (.resp ⟨200, .json (.arr ((coordsQuery db vx vy vz).map .int))⟩, ⟨some e⟩)) := by
  refine ⟨fun db t => ⟨distinctSorted_sorted _, distinctSorted_nodup _⟩,
    fun db vx vy vz => ⟨distinctSorted_sorted _, distinctSorted_nodup _⟩,
    fun e env db t => rfl, fun e env db coords vx vy vz h => ?_⟩
  simp [get_studies_by_coordinates, h, get_engine]

/-- C3 witness: the studies-by-coordinate conjunct applied to the parsed
coordinate string `0_-52_26` over a concrete snapshot. -/
theorem studies_sorted_nodup_witness :
    get_studies_by_coordinates ⟨some ⟨"postgresql://h/db".data, true⟩⟩ none
        (.ok ⟨[⟨7, mkRat 0 1, mkRat (-52) 1, mkRat 26 1⟩], [], []⟩) "0_-52_26" =
      (.resp ⟨200, .json (.arr ((coordsQuery ⟨[⟨7, mkRat 0 1, mkRat (-52) 1, mkRat 26 1⟩], [], []⟩
        (.finite (mkRat 0 1)) (.finite (mkRat (-52) 1)) (.finite (mkRat 26 1))).map .int))⟩,
       ⟨some ⟨"postgresql://h/db".data, true⟩⟩) :=
  studies_sorted_nodup.2.2.2 _ _ _ _ _ _ _ (by decide)

/-- C7: `get_engine` rewrites exactly a leading `postgres://` to
`postgresql://` leaving the rest of the URL unchanged, leaves any other
URL untouched, and applies the transform only on first construction: once
the handle is memoized a call returns it without reading configuration. -/
theorem db_url_scheme_rewrite :
    (∀ rest : List Char,
      normalize_db_url ("postgres://".data ++ rest) = "postgresql://".data ++ rest)
    ∧ (∀ l : List Char, "postgres://".data.isPrefixOf l = false → normalize_db_url l = l)
    ∧ (∀ (e : Engine) (env : Option (List Char)),
      get_engine ⟨some e⟩ env = .ok (e, ⟨some e⟩)) := by
  refine ⟨fun rest => ?_, fun l h => ?_, fun e env => rfl⟩
  · have hp : "postgres://".data.isPrefixOf ("postgres://".data ++ rest) = true := by
      rw [List.isPrefixOf_iff_prefix]; exact List.prefix_append _ _
    simp only [normalize_db_url, hp, if_true]
    rfl
  · simp [normalize_db_url, h]

/-- C7 witness: the rewrite conjunct applied to a concrete deprecated URL
and the no-op conjunct applied to a URL with a different scheme. -/
theorem db_url_scheme_rewrite_witness :
    normalize_db_url ("postgres://".data ++ "u:p@host/db".data) =
      "postgresql://".data ++ "u:p@host/db".data
    ∧ normalize_db_url "mysql://host/db".data = "mysql://host/db".data :=
  ⟨db_url_scheme_rewrite.1 _, db_url_scheme_rewrite.2.1 _ (by decide)⟩

/-- C8: once `get_engine` has successfully produced a handle, the global
holds it, and every later call returns that same handle with the state
unchanged, whatever the configuration then contains. -/
theorem engine_memoized (st st' : EngineState) (env : Option (List Char))
    (e : Engine) (h : get_engine st env = .ok (e, st')) :
    st'.engine = some e
    ∧ ∀ env' : Option (List Char), get_engine st' env' = .ok (e, st') := by
  obtain ⟨eng⟩ := st
  cases eng with
  | some e1 =>
    have h' : (Except.ok (e1, (⟨some e1⟩ : EngineState)) :
        Except Unit (Engine × EngineState)) = .ok (e, st') := h
    injection h' with h2
    injection h2 with ha hb
    subst ha; subst hb
    exact ⟨rfl, fun env' => rfl⟩
  | none =>
    cases env with
    | none => exact absurd h (by simp [get_engine])
    | some url =>
      by_cases hu : url = []
      · rw [show get_engine ⟨none⟩ (some url) = .error () from by simp [get_engine, hu]] at h
        exact absurd h (by simp)
      · rw [show get_engine ⟨none⟩ (some url) =
            .ok (⟨normalize_db_url url, true⟩, ⟨some ⟨normalize_db_url url, true⟩⟩) from by
          simp [get_engine, hu]] at h
        injection h with h2
        injection h2 with ha hb
        subst ha; subst hb
        exact ⟨rfl, fun env' => rfl⟩

/-- C8 witness: `engine_memoized` applied to the first successful call on a
fresh state with a concrete deprecated-scheme URL. -/
theorem engine_memoized_witness :
    (⟨some ⟨"postgresql://h/db".data, true⟩⟩ : EngineState).engine =
      some ⟨"postgresql://h/db".data, true⟩
    ∧ get_engine ⟨some ⟨"postgresql://h/db".data, true⟩⟩ none =
      .ok (⟨"postgresql://h/db".data, true⟩, ⟨some ⟨"postgresql://h/db".data, true⟩⟩) :=
  ⟨(engine_memoized ⟨none⟩ _ (some "postgres://h/db".data) _ rfl).1,
   (engine_memoized ⟨none⟩ _ (some "postgres://h/db".data) _ rfl).2 none⟩

/-- Helper: membership in the dissociate-terms query result characterizes
the anti-join — the study is annotated with the first term, has no
annotation row with the second term, and the title stems from a metadata
row of the same study. -/
theorem dissocTermsQuery_mem {db : Db} {ta tb : String} {r : ℤ × String}
    (h : r ∈ dissocTermsQuery db ta tb) :
    (∃ a ∈ db.annotations_terms, a.study_id = r.1 ∧ a.term = ta)
    ∧ (∀ b ∈ db.annotations_terms, ¬(b.study_id = r.1 ∧ b.term = tb))
    ∧ (∃ m ∈ db.metadata, m.study_id = r.1 ∧ m.title = r.2) := by
  unfold dissocTermsQuery at h
  rw [(List.perm_insertionSort _ _).mem_iff, List.mem_dedup] at h
  simp only [List.mem_flatMap, List.mem_filter, List.mem_map, Bool.and_eq_true,
    beq_iff_eq, Bool.not_eq_true', List.any_eq_false, Bool.and_eq_false_iff,
    beq_eq_false_iff_ne, ne_eq] at h
  obtain ⟨a, ⟨ha, hta, hnot⟩, m, ⟨hm, hms⟩, heq⟩ := h
  subst heq
  exact ⟨⟨a, ha, rfl, hta⟩, hnot, ⟨m, hm, hms, rfl⟩⟩

/-- C1: every row of a successful dissociate-terms response is a
`{study_id, title}` object whose study has an annotation row with term
exactly `ta`, has no annotation row with term exactly `tb` in the same
snapshot, and whose title comes from a metadata row of that study. -/
theorem dissociate_terms_anti_join (e : Engine) (env : Option (List Char))
    (db : Db) (ta tb : String) (l : List Json) (st2 : EngineState) (j : Json)
    (hresp : dissociate_by_terms ⟨some e⟩ env (.ok db) ta tb =
      (.resp ⟨200, .json (.arr l)⟩, st2))
    (hj : j ∈ l) :
    ∃ s t, j = .obj [("study_id", .int s), ("title", .str t)]
      ∧ (∃ a ∈ db.annotations_terms, a.study_id = s ∧ a.term = ta)
      ∧ (∀ b ∈ db.annotations_terms, ¬(b.study_id = s ∧ b.term = tb))
      ∧ (∃ m ∈ db.metadata, m.study_id = s ∧ m.title = t) := by
  have h0 : (Outcome.resp ⟨200, .json (.arr ((dissocTermsQuery db ta tb).map
        (fun r => .obj [("study_id", .int r.1), ("title", .str r.2)])))⟩,
      (⟨some e⟩ : EngineState)) = (.resp ⟨200, .json (.arr l)⟩, st2) := hresp
  injection h0 with h1 h2
  injection h1 with h3
  injection h3 with hst hbody
  injection hbody with h4
  injection h4 with h5
  subst h5
  obtain ⟨r, hr, rfl⟩ := List.mem_map.mp hj
  obtain ⟨hA, hB, hM⟩ := dissocTermsQuery_mem hr
  exact ⟨r.1, r.2, rfl, hA, hB, hM⟩

/-- C1 witness: `dissociate_terms_anti_join` applied to a concrete
snapshot in which study 1 is annotated `pain` but not `touch`. -/
theorem dissociate_terms_anti_join_witness :
    ∃ s t, Json.obj [("study_id", .int 1), ("title", .str "A")] =
        .obj [("study_id", .int s), ("title", .str t)]
      ∧ (∃ a ∈ [AnnotationRow.mk 1 "pain", AnnotationRow.mk 2 "touch"],
          a.study_id = s ∧ a.term = "pain")
      ∧ (∀ b ∈ [AnnotationRow.mk 1 "pain", AnnotationRow.mk 2 "touch"],
          ¬(b.study_id = s ∧ b.term = "touch"))
      ∧ (∃ m ∈ [MetadataRow.mk 1 "A", MetadataRow.mk 2 "B"],
          m.study_id = s ∧ m.title = t) :=
  dissociate_terms_anti_join ⟨"postgresql://h/db".data, true⟩ none
    ⟨[], [⟨1, "A"⟩, ⟨2, "B"⟩], [⟨1, "pain"⟩, ⟨2, "touch"⟩]⟩ "pain" "touch"
    [.obj [("study_id", .int 1), ("title", .str "A")]]
    ⟨some ⟨"postgresql://h/db".data, true⟩⟩
    (.obj [("study_id", .int 1), ("title", .str "A")]) rfl (List.mem_singleton.mpr rfl)

/-- C5: in a successful dissociate-locations response every row's `coord`
field holds the parsed first input triple — the same `[x1, y1, z1]` for
every returned row — and not the matched row's own stored coordinates. -/
theorem dissociate_locations_echoes_first_coord (e : Engine)
    (env : Option (List Char)) (db : Db) (c1 c2 : String)
    (x1 y1 z1 x2 y2 z2 : PyVal) (l : List Json) (st2 : EngineState) (j : Json)
    (hp1 : parseCoords c1 = some (x1, y1, z1))
    (hp2 : parseCoords c2 = some (x2, y2, z2))
    (hresp : dissociate_by_locations ⟨some e⟩ env (.ok db) c1 c2 =
      (.resp ⟨200, .json (.arr l)⟩, st2))
    (hj : j ∈ l) :
    ∃ s t, j = .obj [("coord", .arr [.num x1, .num y1, .num z1]),
                     ("study_id", .int s), ("title", .str t)] := by
  rw [show dissociate_by_locations ⟨some e⟩ env (.ok db) c1 c2 =
      (.resp ⟨200, .json (.arr ((dissocLocQuery db x1 y1 z1 x2 y2 z2).map
        (fun r => .obj [("coord", .arr [.num x1, .num y1, .num z1]),
                        ("study_id", .int r.1), ("title", .str r.2)])))⟩,
       ⟨some e⟩) from by
    simp [dissociate_by_locations, hp1, hp2, get_engine]] at hresp
  injection hresp with h1 h2
  injection h1 with h3
  injection h3 with hst hbody
  injection hbody with h4
  injection h4 with h5
  subst h5
  obtain ⟨r, hr, rfl⟩ := List.mem_map.mp hj
  exact ⟨r.1, r.2, rfl⟩

/-- C5 witness: `dissociate_locations_echoes_first_coord` on the request
`/dissociate/locations/0_-52_26/1_2_3` against a snapshot holding one
matching study, checking that the echoed `coord` is the parsed first
triple. -/
theorem dissociate_locations_echoes_first_coord_witness :
    ∃ s t, Json.obj [("coord", .arr [.num (.finite (mkRat 0 1)),
            .num (.finite (mkRat (-52) 1)), .num (.finite (mkRat 26 1))]),
          ("study_id", .int 9), ("title", .str "S")] =
        .obj [("coord", .arr [.num (.finite (mkRat 0 1)),
            .num (.finite (mkRat (-52) 1)), .num (.finite (mkRat 26 1))]),
          ("study_id", .int s), ("title", .str t)] :=
  dissociate_locations_echoes_first_coord ⟨"postgresql://h/db".data, true⟩ none
    ⟨[⟨9, mkRat 0 1, mkRat (-52) 1, mkRat 26 1⟩], [⟨9, "S"⟩], []⟩
    "0_-52_26" "1_2_3"
    (.finite (mkRat 0 1)) (.finite (mkRat (-52) 1)) (.finite (mkRat 26 1))
    (.finite (mkRat 1 1)) (.finite (mkRat 2 1)) (.finite (mkRat 3 1))
    [.obj [("coord", .arr [.num (.finite (mkRat 0 1)),
        .num (.finite (mkRat (-52) 1)), .num (.finite (mkRat 26 1))]),
      ("study_id", .int 9), ("title", .str "S")]]
    ⟨some ⟨"postgresql://h/db".data, true⟩⟩
    (.obj [("coord", .arr [.num (.finite (mkRat 0 1)),
        .num (.finite (mkRat (-52) 1)), .num (.finite (mkRat 26 1))]),
      ("study_id", .int 9), ("title", .str "S")])
    (by decide) (by decide) rfl (List.mem_singleton.mpr rfl)

/-- C2: a coordinate path that splits on underscores into exactly three
float-parseable segments is parsed into exactly those three numeric values
and the coordinate handlers proceed to the query with them; for any other
coordinate path the handlers return status 400 with the format message
before touching the engine state or issuing a query. -/
theorem coords_parse_then_query :
    (∀ (coords : String) (p1 p2 p3 : List Char) (v1 v2 v3 : PyVal),
      splitSep coords.data = [p1, p2, p3] →
      pyFloat ⟨p1⟩ = some v1 → pyFloat ⟨p2⟩ = some v2 → pyFloat ⟨p3⟩ = some v3 →
      parseCoords coords = some (v1, v2, v3))
    ∧ (∀ (e : Engine) (env : Option (List Char)) (db : Db) (coords : String)
        (v1 v2 v3 : PyVal), parseCoords coords = some (v1, v2, v3) →
      get_studies_by_coordinates ⟨some e⟩ env (.ok db) coords =
        (.resp ⟨200, .json (.arr ((coordsQuery db v1 v2 v3).map .int))⟩, ⟨some e⟩))
    ∧ (∀ (st : EngineState) (env : Option (List Char)) (q : Except Unit Db)
        (coords : String), parseCoords coords = none →
      get_studies_by_coordinates st env q coords =
        (.resp ⟨400, .html bad_coords_msg⟩, st))
    ∧ (∀ (e : Engine) (env : Option (List Char)) (db : Db) (c1 c2 : String)
        (x1 y1 z1 x2 y2 z2 : PyVal),
      parseCoords c1 = some (x1, y1, z1) → parseCoords c2 = some (x2, y2, z2) →
      dissociate_by_locations ⟨some e⟩ env (.ok db) c1 c2 =
        (.resp ⟨200, .json (.arr ((dissocLocQuery db x1 y1 z1 x2 y2 z2).map
          (fun r => .obj [("coord", .arr [.num x1, .num y1, .num z1]),
                          ("study_id", .int r.1), ("title", .str r.2)])))⟩, ⟨some e⟩))
    ∧ (∀ (st : EngineState) (env : Option (List Char)) (q : Except Unit Db)
        (c1 c2 : String), parseCoords c1 = none ∨ parseCoords c2 = none →
      dissociate_by_locations st env q c1 c2 =
        (.resp ⟨400, .html bad_coords_msg⟩, st)) := by
  refine ⟨fun coords p1 p2 p3 v1 v2 v3 hs h1 h2 h3 => ?_,
    fun e env db coords v1 v2 v3 h => ?_,
    fun st env q coords h => ?_,
    fun e env db c1 c2 x1 y1 z1 x2 y2 z2 h1 h2 => ?_,
    fun st env q c1 c2 h => ?_⟩
  · simp only [parseCoords, hs, h1, h2, h3]
  · simp [get_studies_by_coordinates, h, get_engine]
  · simp [get_studies_by_coordinates, h]
  · simp [dissociate_by_locations, h1, h2, get_engine]
  · rcases h with h | h
    · rcases hc : parseCoords c2 with _ | v2 <;>
        simp [dissociate_by_locations, h, hc]
    · rcases hc : parseCoords c1 with _ | v1 <;>
        [skip; obtain ⟨x1, y1, z1⟩ := v1] <;>
        simp [dissociate_by_locations, h, hc]

/-- C2 witness: the parse-and-query conjuncts at `0_-52_26` and the
rejection conjuncts at the single-segment path `bad-coord` over concrete
snapshots. -/
theorem coords_parse_then_query_witness :
    parseCoords "0_-52_26" =
      some (.finite (mkRat 0 1), .finite (mkRat (-52) 1), .finite (mkRat 26 1))
    ∧ get_studies_by_coordinates ⟨none⟩ none (.ok ⟨[], [], []⟩) "bad-coord" =
      (.resp ⟨400, .html bad_coords_msg⟩, ⟨none⟩)
    ∧ dissociate_by_locations ⟨none⟩ none (.ok ⟨[], [], []⟩) "1_2_3" "4-5-6" =
      (.resp ⟨400, .html bad_coords_msg⟩, ⟨none⟩) :=
  ⟨coords_parse_then_query.1 "0_-52_26" "0".data "-52".data "26".data
      (.finite (mkRat 0 1)) (.finite (mkRat (-52) 1)) (.finite (mkRat 26 1))
      (by decide) (by decide) (by decide) (by decide),
   coords_parse_then_query.2.2.1 _ _ _ _ (by decide),
   coords_parse_then_query.2.2.2.2 _ _ _ _ _ (Or.inr (by decide))⟩

/-- C4: when the database interaction inside a query handler's `try` block
fails, the handler returns exactly status 500 with body
`{"error": "db query failed"}` — never a partial payload and never any
detail of the cause — for each of the four query handlers. -/
theorem db_failure_uniform_error :
    (∀ (e : Engine) (env : Option (List Char)) (t : String),
      get_studies_by_term ⟨some e⟩ env (.error ()) t =
        (.resp ⟨500, .json (.obj [("error", .str "db query failed")])⟩, ⟨some e⟩))
    ∧ (∀ (e : Engine) (env : Option (List Char)) (coords : String) (v1 v2 v3 : PyVal),
      parseCoords coords = some (v1, v2, v3) →
      get_studies_by_coordinates ⟨some e⟩ env (.error ()) coords =
        (.resp ⟨500, .json (.obj [("error", .str "db query failed")])⟩, ⟨some e⟩))
    ∧ (∀ (e : Engine) (env : Option (List Char)) (a b : String),
      dissociate_by_terms ⟨some e⟩ env (.error ()) a b =
        (.resp ⟨500, .json (.obj [("error", .str "db query failed")])⟩, ⟨some e⟩))
    ∧ (∀ (e : Engine) (env : Option (List Char)) (c1 c2 : String)
        (x1 y1 z1 x2 y2 z2 : PyVal),
      parseCoords c1 = some (x1, y1, z1) → parseCoords c2 = some (x2, y2, z2) →
      dissociate_by_locations ⟨some e⟩ env (.error ()) c1 c2 =
        (.resp ⟨500, .json (.obj [("error", .str "db query failed")])⟩, ⟨some e⟩)) := by
  refine ⟨fun e env t => rfl, fun e env coords v1 v2 v3 h => ?_,
    fun e env a b => rfl, fun e env c1 c2 x1 y1 z1 x2 y2 z2 h1 h2 => ?_⟩
  · simp [get_studies_by_coordinates, h, get_engine, dbErr, db_err_body]
  · simp [dissociate_by_locations, h1, h2, get_engine, dbErr, db_err_body]

/-- C4 witness: the coordinate-handler conjunct at the parsed path
`0_-52_26` with a failing database interaction. -/
theorem db_failure_uniform_error_witness :
    get_studies_by_coordinates ⟨some ⟨"postgresql://h/db".data, true⟩⟩ none
        (.error ()) "0_-52_26" =
      (.resp ⟨500, .json (.obj [("error", .str "db query failed")])⟩,
       ⟨some ⟨"postgresql://h/db".data, true⟩⟩) :=
  db_failure_uniform_error.2.1 _ _ "0_-52_26"
    (.finite (mkRat 0 1)) (.finite (mkRat (-52) 1)) (.finite (mkRat 26 1)) (by decide)

/-- C9: coordinate validation accepts everything Python's `float` accepts,
not only signed decimals: `inf`, `nan`, exponent forms and surrounding
whitespace all pass, the path `nan_inf_1e5` is not rejected, and the
handler proceeds to query with the resulting non-finite and exponent-form
values. -/
theorem float_validation_python_forms :
    pyFloat "inf" = some (.infinite false)
    ∧ pyFloat "nan" = some .nan
    ∧ pyFloat "1e5" = some (.finite (mkRat 100000 1))
    ∧ pyFloat " 2.5 " = some (.finite (mkRat 5 2))
    ∧ parseCoords "nan_inf_1e5" =
      some (.nan, .infinite false, .finite (mkRat 100000 1))
    ∧ (∀ (e : Engine) (env : Option (List Char)) (db : Db),
      get_studies_by_coordinates ⟨some e⟩ env (.ok db) "nan_inf_1e5" =
        (.resp ⟨200, .json (.arr ((coordsQuery db .nan (.infinite false)
          (.finite (mkRat 100000 1))).map .int))⟩, ⟨some e⟩)) :=
  ⟨by decide, by decide, by decide, by decide, by decide, fun e env db => rfl⟩

/-- C10: with the connection string unset and the engine not yet
memoized, the four query handlers still answer the generic 500 JSON error
(the configuration failure is swallowed by their `try` blocks), while the
diagnostics handler calls `get_engine()` outside any `try` and lets the
exception escape, so its documented payload is never produced. -/
theorem missing_config_behavior :
    (∀ (q : Except Unit Db) (t : String),
      get_studies_by_term ⟨none⟩ none q t =
        (.resp ⟨500, .json (.obj [("error", .str "db query failed")])⟩, ⟨none⟩))
    ∧ (∀ (q : Except Unit Db) (coords : String) (v1 v2 v3 : PyVal),
      parseCoords coords = some (v1, v2, v3) →
      get_studies_by_coordinates ⟨none⟩ none q coords =
        (.resp ⟨500, .json (.obj [("error", .str "db query failed")])⟩, ⟨none⟩))
    ∧ (∀ (q : Except Unit Db) (a b : String),
      dissociate_by_terms ⟨none⟩ none q a b =
        (.resp ⟨500, .json (.obj [("error", .str "db query failed")])⟩, ⟨none⟩))
    ∧ (∀ (q : Except Unit Db) (c1 c2 : String) (x1 y1 z1 x2 y2 z2 : PyVal),
      parseCoords c1 = some (x1, y1, z1) → parseCoords c2 = some (x2, y2, z2) →
      dissociate_by_locations ⟨none⟩ none q c1 c2 =
        (.resp ⟨500, .json (.obj [("error", .str "db query failed")])⟩, ⟨none⟩))
    ∧ (∀ d : DiagDb, test_db ⟨none⟩ none d = (.raised, ⟨none⟩)) := by
  refine ⟨fun q t => rfl, fun q coords v1 v2 v3 h => ?_, fun q a b => rfl,
    fun q c1 c2 x1 y1 z1 x2 y2 z2 h1 h2 => ?_, fun d => rfl⟩
  · simp [get_studies_by_coordinates, h, get_engine, dbErr, db_err_body]
  · simp [dissociate_by_locations, h1, h2, get_engine, dbErr, db_err_body]

/-- C10 witness: the coordinate handler and the diagnostics handler on a
fresh state with `DB_URL` unset. -/
theorem missing_config_behavior_witness :
    get_studies_by_coordinates ⟨none⟩ none (.ok ⟨[], [], []⟩) "0_-52_26" =
      (.resp ⟨500, .json (.obj [("error", .str "db query failed")])⟩, ⟨none⟩)
    ∧ test_db ⟨none⟩ none
        ⟨.ok (), .ok "v", .ok 0, .ok 0, .ok 0, .ok [], .ok [], .ok [], .ok ()⟩ =
      (.raised, ⟨none⟩) :=
  ⟨missing_config_behavior.2.1 _ "0_-52_26"
      (.finite (mkRat 0 1)) (.finite (mkRat (-52) 1)) (.finite (mkRat 26 1)) (by decide),
   missing_config_behavior.2.2.2.2 _⟩

/-- C6: in the diagnostics handler a failing sample sub-query degrades to
an empty list while the response is still produced with `ok = true` and
status 200; a failure of the setup, the version query, any count query or
the transaction close instead yields status 500 with `ok = false` and an
`error` field. -/
theorem test_db_partial_failure_policy :
    (∀ (e : Engine) (env : Option (List Char)) (v : String) (cc mc ac : ℤ)
        (cs ms asm : Except Unit (List Json)),
      test_db ⟨some e⟩ env ⟨.ok (), .ok v, .ok cc, .ok mc, .ok ac, cs, ms, asm, .ok ()⟩ =
        (.resp ⟨200, .json (.obj [("ok", .bool true),
          ("dialect", .str (dialect_name e)), ("version", .str v),
          ("coordinates_count", .int cc), ("metadata_count", .int mc),
          ("annotations_terms_count", .int ac),
          ("coordinates_sample", .arr (orEmpty cs)),
          ("metadata_sample", .arr (orEmpty ms)),
          ("annotations_terms_sample", .arr (orEmpty asm))])⟩, ⟨some e⟩))
    ∧ orEmpty (.error ()) = []
    ∧ (∀ rows, orEmpty (.ok rows) = rows)
    ∧ (∀ (e : Engine) (env : Option (List Char)) (r2 : Except Unit String)
        (r3 r4 r5 : Except Unit ℤ) (cs ms asm : Except Unit (List Json))
        (cm : Except Unit Unit),
      test_db ⟨some e⟩ env ⟨.error (), r2, r3, r4, r5, cs, ms, asm, cm⟩ =
        (.resp ⟨500, .json (.obj [("ok", .bool false),
          ("dialect", .str (dialect_name e)),
          ("error", .str "db query failed")])⟩, ⟨some e⟩))
    ∧ (∀ (e : Engine) (env : Option (List Char)) (r3 r4 r5 : Except Unit ℤ)
        (cs ms asm : Except Unit (List Json)) (cm : Except Unit Unit),
      test_db ⟨some e⟩ env ⟨.ok (), .error (), r3, r4, r5, cs, ms, asm, cm⟩ =
        (.resp ⟨500, .json (.obj [("ok", .bool false),
          ("dialect", .str (dialect_name e)),
          ("error", .str "db query failed")])⟩, ⟨some e⟩))
    ∧ (∀ (e : Engine) (env : Option (List Char)) (v : String)
        (r4 r5 : Except Unit ℤ) (cs ms asm : Except Unit (List Json))
        (cm : Except Unit Unit),
      test_db ⟨some e⟩ env ⟨.ok (), .ok v, .error (), r4, r5, cs, ms, asm, cm⟩ =
        (.resp ⟨500, .json (.obj [("ok", .bool false),
          ("dialect", .str (dialect_name e)), ("version", .str v),
          ("error", .str "db query failed")])⟩, ⟨some e⟩))
    ∧ (∀ (e : Engine) (env : Option (List Char)) (v : String) (cc : ℤ)
        (r5 : Except Unit ℤ) (cs ms asm : Except Unit (List Json))
        (cm : Except Unit Unit),
      test_db ⟨some e⟩ env ⟨.ok (), .ok v, .ok cc, .error (), r5, cs, ms, asm, cm⟩ =
        (.resp ⟨500, .json (.obj [("ok", .bool false),
          ("dialect", .str (dialect_name e)), ("version", .str v),
          ("coordinates_count", .int cc),
          ("error", .str "db query failed")])⟩, ⟨some e⟩))
    ∧ (∀ (e : Engine) (env : Option (List Char)) (v : String) (cc mc : ℤ)
        (cs ms asm : Except Unit (List Json)) (cm : Except Unit Unit),
      test_db ⟨some e⟩ env ⟨.ok (), .ok v, .ok cc, .ok mc, .error (), cs, ms, asm, cm⟩ =
        (.resp ⟨500, .json (.obj [("ok", .bool false),
          ("dialect", .str (dialect_name e)), ("version", .str v),
          ("coordinates_count", .int cc), ("metadata_count", .int mc),
          ("error", .str "db query failed")])⟩, ⟨some e⟩))
    ∧ (∀ (e : Engine) (env : Option (List Char)) (v : String) (cc mc ac : ℤ)
        (cs ms asm : Except Unit (List Json)),
      test_db ⟨some e⟩ env ⟨.ok (), .ok v, .ok cc, .ok mc, .ok ac, cs, ms, asm, .error ()⟩ =
        (.resp ⟨500, .json (.obj [("ok", .bool false),
          ("dialect", .str (dialect_name e)), ("version", .str v),
          ("coordinates_count", .int cc), ("metadata_count", .int mc),
          ("annotations_terms_count", .int ac),
          ("coordinates_sample", .arr (orEmpty cs)),
          ("metadata_sample", .arr (orEmpty ms)),
          ("annotations_terms_sample", .arr (orEmpty asm)),
          ("error", .str "db query failed")])⟩, ⟨some e⟩)) :=
  ⟨fun _ _ _ _ _ _ _ _ _ => rfl, rfl, fun _ => rfl,
   fun _ _ _ _ _ _ _ _ _ _ => rfl,
   fun _ _ _ _ _ _ _ _ _ => rfl,
   fun _ _ _ _ _ _ _ _ _ => rfl,
   fun _ _ _ _ _ _ _ _ _ => rfl,
   fun _ _ _ _ _ _ _ _ _ => rfl,
   fun _ _ _ _ _ _ _ _ _ => rfl⟩

end NsApp
